import Mathlib

/-!
Verification of `openstack_releases/cmds/validate.py`.

The module is a single validation pass: `is_a_hash` checks the shape of a
claimed commit hash, and `main` walks a list of deliverable files, checking
the launchpad project, the announcement address and, for each release and
each project reference, commit existence, tag/hash agreement and ancestry
against the previous release.  The collaborators that live outside this
module (`requests.get`, `versionutils.validate_version`, and the `gitutils`
queries `commit_exists`, `sha_for_tag`, `check_ancestry`, `clone_repo`) are
modelled as an oracle record `World`, following the external-interface
contracts of the design document (its section 6).
-/

namespace Releases

/-- A hex digit as matched by the pattern `[a-f0-9]` under `re.I`:
the Python case-insensitive class adds only `A`-`F`. -/
def isHexDigitCI (c : Char) : Bool :=
  (Char.ofNat 48 ≤ c && c ≤ Char.ofNat 57) ||
  (Char.ofNat 97 ≤ c && c ≤ Char.ofNat 102) ||
  (Char.ofNat 65 ≤ c && c ≤ Char.ofNat 70)

/-- `is_a_hash(val)` from `validate.py`:
`re.search('^[a-f0-9]{40}$', val, re.I) is not None`.
Python semantics: without `re.M` the anchor `^` matches only at position 0,
and `$` matches at the end of the string or just before one newline that
ends the string.  So the pattern matches exactly when the first 40
characters are hex digits and nothing, or a single newline, follows. -/
def is_a_hash (val : String) : Bool :=
  let cs := val.data
  decide (40 ≤ cs.length) && (cs.take 40).all isHexDigitCI &&
    ((cs.drop 40).isEmpty || cs.drop 40 == [Char.ofNat 10])

/-- The well-formedness predicate in the words of the design document:
the string is exactly 40 hexadecimal characters, matched
case-insensitively.  (Stated separately from `is_a_hash` so that the two
can be compared.) -/
def isHex40Spec (h : String) : Bool :=
  h.data.length == 40 && h.data.all isHexDigitCI

/-- 40 case-insensitive hex characters followed by one newline — the extra
strings `is_a_hash` accepts because of Python's `$` semantics. -/
def isHex40ThenNL (h : String) : Bool :=
  h.data.length == 41 && (h.data.take 40).all isHexDigitCI &&
    h.data.drop 40 == [Char.ofNat 10]

/-- Python `repr` of a string without quotes or escapes in it:
the form `%r` produces in the error messages of `validate.py`. -/
def pyRepr (s : String) : String := "\x27" ++ s ++ "\x27"

/-- One entry of a release's `projects` list. -/
structure ProjectRef where
  repo : String
  hash : String
  deriving DecidableEq, Repr

/-- One entry of a deliverable's `releases` list. -/
structure Release where
  version : String
  projects : List ProjectRef
  deriving DecidableEq, Repr

/-- The fields of one deliverable YAML document that `main` reads:
`launchpad`, `send-announcements-to` and `releases`.  A missing key is
`none` (in Python, the `KeyError` branch of the `try`). -/
structure Deliverable where
  launchpad : Option String
  announce_to : Option String
  releases : List Release
  deriving DecidableEq, Repr

/-- Outcome of the `requests.get` call on the launchpad API: either an HTTP
status code, or a raised transport exception (connection error / timeout). -/
inductive LPResult where
  | status (code : Nat)
  | connFailure
  deriving DecidableEq, Repr

/-- A repository query issued through `gitutils` (used to record which
lookups the validator performs). -/
inductive GitOp where
  | commitExists (repo ref : String)
  | cloneRepo (repo : String)
  | shaForTag (repo tag : String)
  | checkAncestry (repo ancestor descendant : String)
  deriving DecidableEq, Repr

/-- Oracle for the collaborators of `validate.main` that are outside the
module, with the signatures the design document gives them:
`requests.get` on the launchpad name, `versionutils.validate_version`,
`gitutils.commit_exists(repo, ref)`, `gitutils.sha_for_tag(workdir, repo,
tag)` (the workdir argument does not affect the answer) and
`gitutils.check_ancestry(workdir, repo, ancestor, descendant)`. -/
structure World where
  lp_get : String → LPResult
  validate_version : String → List String
  commit_exists : String → String → Bool
  sha_for_tag : String → String → String
  check_ancestry : String → String → String → Bool

/-- Error text of lines 138-145 of `validate.py` (malformed hash). -/
def notAHashMsg (version : String) (p : ProjectRef) : String :=
  p.repo ++ " version " ++ version ++ " release from " ++ pyRepr p.hash ++
    ", which is not a hash"

/-- Error text of line 154 of `validate.py` (commit not found). -/
def noCommitMsg (p : ProjectRef) : String :=
  "No commit " ++ pyRepr p.hash ++ " in " ++ pyRepr p.repo

/-- Error text of lines 178-184 of `validate.py` (tag on a different commit). -/
def wrongCommitMsg (version : String) (p : ProjectRef) (actual : String) : String :=
  "Version " ++ version ++ " in " ++ p.repo ++ " is on commit " ++ actual ++
    " instead of " ++ p.hash

/-- Error text of lines 207-211 of `validate.py` (not a descendant). -/
def notDescendantMsg (p : ProjectRef) (prev : String) : String :=
  p.repo ++ " " ++ p.hash ++ " is not a descendant of " ++ prev

/-- Error text of line 97 of `validate.py`. -/
def noLaunchpadMsg (filename : String) : String :=
  "No launchpad project given in " ++ filename

/-- Error text of line 104 of `validate.py`. -/
def badLaunchpadMsg (lp : String) : String :=
  "Launchpad project " ++ lp ++ " does not exist"

/-- Error text of lines 112-113 of `validate.py`. -/
def noAnnounceMsg (filename : String) : String :=
  "No send-announcements-to in " ++ filename

/-- Error text of lines 120-121 of `validate.py`. -/
def spaceAnnounceMsg (a filename : String) : String :=
  "Space in send-announcements-to (" ++ pyRepr a ++ ") for " ++ filename

/-- Lines 168-184 of `validate.py`: the tag already exists and resolved to
`actual`; require equality with the claimed hash, else record an error
naming both commits. -/
def tagMatchErrors (version : String) (p : ProjectRef) (actual : String) :
    List String :=
  if actual = p.hash then [] else [wrongCommitMsg version p actual]

/-- Lines 197-211 of `validate.py`: the ancestry check of the claimed hash
against the previous release's version. -/
def ancestryErrors (w : World) (prev : String) (p : ProjectRef) : List String :=
  if w.check_ancestry p.repo prev p.hash then [] else [notDescendantMsg p prev]

/-- Lines 131-211 of `validate.py`: the body of the `for project` loop.
Returns the errors recorded for this project together with the repository
lookups performed for it.  `prev_version` is `none` for Python `None`; the
code's `if not prev_version` is also taken when the previous version is the
empty string (Python falsiness). -/
def processProject (w : World) (version : String) (prev_version : Option String)
    (prev_projects : List String) (p : ProjectRef) :
    List String × List GitOp :=
  if is_a_hash p.hash = false then
    ([notAHashMsg version p], [])
  else
    let shaErrs := if w.commit_exists p.repo p.hash then [] else [noCommitMsg p]
    let versionExists := w.commit_exists p.repo version
    let baseOps : List GitOp :=
      [GitOp.commitExists p.repo p.hash, GitOp.commitExists p.repo version,
       GitOp.cloneRepo p.repo]
    if versionExists then
      (shaErrs ++ tagMatchErrors version p (w.sha_for_tag p.repo version),
       baseOps ++ [GitOp.shaForTag p.repo version])
    else
      match prev_version with
      | none => (shaErrs, baseOps)
      | some pv =>
        if pv = "" then
          (shaErrs, baseOps)
        else if prev_projects.contains p.repo = false then
          (shaErrs, baseOps)
        else
          (shaErrs ++ ancestryErrors w pv p,
           baseOps ++ [GitOp.checkAncestry p.repo pv p.hash])

/-- Lines 123-213 of `validate.py`: the `for release` loop, threading the
`prev_version` / `prev_projects` state exactly as the source does (each
iteration validates the version string, processes every project, then
overwrites the state with this release's version and repo set).  Returns
the accumulated errors, the repository lookups, and the final state. -/
def releaseLoop (w : World) :
    Option String → List String → List Release →
    List String × List GitOp × Option String × List String
  | pv, pp, [] => ([], [], pv, pp)
  | pv, pp, r :: rest =>
    let verrs := w.validate_version r.version
    let projResults := r.projects.map (processProject w r.version pv pp)
    let es := verrs ++ (projResults.map Prod.fst).flatten
    let tr := (projResults.map Prod.snd).flatten
    let next := releaseLoop w (some r.version) (r.projects.map ProjectRef.repo) rest
    (es ++ next.1, tr ++ next.2.1, next.2.2)

/-- Lines 93-106 of `validate.py`: the launchpad check.  A missing key is an
error; a 4xx status is an error; a raised transport exception is not caught
anywhere in `main`, so it aborts the run (`Except.error`). -/
def launchpadCheck (w : World) (filename : String) (d : Deliverable) :
    Except Unit (List String) :=
  match d.launchpad with
  | none => Except.ok [noLaunchpadMsg filename]
  | some lp =>
    match w.lp_get lp with
    | LPResult.connFailure => Except.error ()
    | LPResult.status code =>
      Except.ok (if code / 100 = 4 then [badLaunchpadMsg lp] else [])

/-- Lines 108-121 of `validate.py`: the announcement-address check. -/
def announceErrors (filename : String) (d : Deliverable) : List String :=
  match d.announce_to with
  | none => [noAnnounceMsg filename]
  | some a =>
    if a.data.contains (Char.ofNat 32) then [spaceAnnounceMsg a filename]
    else []

/-- Lines 90-213 of `validate.py`: everything `main` does for one present
file.  The `prev_version` / `prev_projects` state is reset (lines 123-124)
before the release loop; the final state is returned because the Python
variables survive into the next loop iteration. -/
def processDeliverable (w : World) (filename : String) (d : Deliverable) :
    Except Unit (List String × List GitOp × Option String × List String) :=
  match launchpadCheck w filename d with
  | Except.error u => Except.error u
  | Except.ok lpErrs =>
    let annErrs := announceErrors filename d
    let rel := releaseLoop w none [] d.releases
    Except.ok (lpErrs ++ annErrs ++ rel.1, rel.2.1, rel.2.2)

/-- One input filename of `main`, with whether `os.path.isfile` holds for it
(line 87; deleted files are skipped) and the parsed document. -/
structure InputFile where
  filename : String
  present : Bool
  deliv : Deliverable

/-- Lines 85-213 of `validate.py`: the `for filename` loop.  The
`prev_version` / `prev_projects` locals persist across iterations (they are
function locals of `main`), which is why they are threaded here; every
present file overwrites them via `processDeliverable`.  A transport
exception from the launchpad lookup propagates and aborts the whole run. -/
def filesLoop (w : World) :
    Option String → List String → List InputFile →
    Except Unit (List String × List GitOp)
  | _pv, _pp, [] => Except.ok ([], [])
  | pv, pp, f :: rest =>
    if f.present then
      match processDeliverable w f.filename f.deliv with
      | Except.error u => Except.error u
      | Except.ok (es, tr, pvNext, ppNext) =>
        match filesLoop w pvNext ppNext rest with
        | Except.error u => Except.error u
        | Except.ok (es2, tr2) => Except.ok (es ++ es2, tr ++ tr2)
    else
      filesLoop w pv pp rest

/-- Sequencing of two completed run segments: the errors and lookups of the
first followed by those of the second; an aborted segment aborts the
whole. -/
def combineRuns (a b : Except Unit (List String × List GitOp)) :
    Except Unit (List String × List GitOp) :=
  match a with
  | Except.error u => Except.error u
  | Except.ok (es, tr) =>
    match b with
    | Except.error u => Except.error u
    | Except.ok (es2, tr2) => Except.ok (es ++ es2, tr ++ tr2)

/-- A well-formed 40-hex commit hash used in concrete runs. -/
def hashA : String := "aaaaaaaaaaaaaaaaaaaaaaaaaaaaaaaaaaaaaaaa"

/-- A second, distinct well-formed 40-hex commit hash. -/
def hashB : String := "bbbbbbbbbbbbbbbbbbbbbbbbbbbbbbbbbbbbbbbb"

/-- Oracle for the decreasing-versions scenario: the launchpad project
exists, every version string is accepted, every commit and tag exists, and
each version tag resolves to the hash the deliverable claims for it. -/
def wBothResolve : World :=
  ⟨fun _ => LPResult.status 200, fun _ => [], fun _ _ => true,
   fun _ t => if t = "1.0.0" then hashA else hashB, fun _ _ _ => true⟩

/-- Oracle in which exactly the 40-hex strings exist as commits (so no
version tag exists) and nothing is an ancestor of anything. -/
def wNoTags : World :=
  ⟨fun _ => LPResult.status 200, fun _ => [], fun _ r => is_a_hash r,
   fun _ _ => "", fun _ _ _ => false⟩

/-- Oracle in which everything exists and every tag resolves to `hashA`. -/
def wAllA : World :=
  ⟨fun _ => LPResult.status 200, fun _ => [], fun _ _ => true,
   fun _ _ => hashA, fun _ _ _ => true⟩

/-- Oracle for the broken Scenario-A deliverable: every version string is
rejected, only the tag `0.1` exists (resolving to `hashB`), and no claimed
commit exists. -/
def wC6x : World :=
  ⟨fun _ => LPResult.status 200, fun _ => ["bad version"],
   fun _ r => r == "0.1", fun _ _ => hashB, fun _ _ _ => true⟩

/-- Oracle in which nothing exists at all. -/
def wNone : World :=
  ⟨fun _ => LPResult.status 200, fun _ => [], fun _ _ => false,
   fun _ _ => "", fun _ _ _ => false⟩

/-- Oracle whose launchpad endpoint raises a transport exception. -/
def wLPDown : World :=
  ⟨fun _ => LPResult.connFailure, fun _ => [], fun _ _ => true,
   fun _ _ => "", fun _ _ _ => true⟩

/-- Oracle whose launchpad endpoint answers 404 for every name. -/
def wLP404 : World :=
  ⟨fun _ => LPResult.status 404, fun _ => [], fun _ _ => true,
   fun _ _ => "", fun _ _ _ => true⟩

/-- Line 220 of `validate.py`: `return 1 if errors else 0`. -/
def mainReturn (errors : List String) : Nat :=
  if errors.isEmpty then 0 else 1

/-- The errors component of a completed run (`none` when the run aborted
with an uncaught exception). -/
def runErrors (res : Except Unit (List String × List GitOp)) :
    Option (List String) :=
  match res with
  | Except.error _ => none
  | Except.ok (es, _) => some es

/-- How the process finishes, for the `atexit`-based cleanup model. -/
inductive ExitKind where
  | normal
  | uncaughtException
  | killed
  deriving DecidableEq, Repr

/-- Modelled from the spec: the design document's lifecycle contract says
cleanup runs "on process exit (including abnormal exit)"; the code uses
`atexit.register`, and Python runs `atexit` handlers at interpreter
shutdown — after a normal return and after an uncaught exception — but not
when the process is killed outright. -/
def atexitRuns : ExitKind → Bool
  | ExitKind.killed => false
  | _ => true

/-- Lines 75-82 of `validate.py` (`cleanup_workdir`): when `args.cleanup`
holds, `shutil.rmtree` is attempted and any exception from it is swallowed
(`except: pass`), so the directory is removed exactly when the call
succeeds; when the caller opted out (`--no-cleanup`), nothing is removed. -/
def cleanup_workdir (cleanup : Bool) (rmtreeSucceeds : Bool) : Bool :=
  if cleanup then
    (if rmtreeSucceeds then true else false)
  else
    false

/-- Whether the working directory has been removed once the process is
gone: the registered `cleanup_workdir` handler ran only if `atexit` fired
for this kind of exit. -/
def workdirRemovedAtExit (cleanup : Bool) (rmtreeSucceeds : Bool)
    (ek : ExitKind) : Bool :=
  if atexitRuns ek then cleanup_workdir cleanup rmtreeSucceeds else false

/-- C1 (counterexample): `is_a_hash` accepts the 41-character string of 40
`a` characters followed by a newline, although that string is not exactly
40 hexadecimal characters — Python's `$` also matches just before a
trailing newline, so "every other string is rejected" fails. -/
theorem is_a_hash_accepts_trailing_newline :
    is_a_hash "aaaaaaaaaaaaaaaaaaaaaaaaaaaaaaaaaaaaaaaa\n" = true ∧
    isHex40Spec "aaaaaaaaaaaaaaaaaaaaaaaaaaaaaaaaaaaaaaaa\n" = false :=
  ⟨by decide, by decide⟩

/-- C1 (amended): the hash format check accepts `h` exactly when `h` is 40
hexadecimal characters matched case-insensitively, or 40 such characters
followed by one trailing newline; every other string is rejected. -/
theorem is_a_hash_characterization (h : String) :
    is_a_hash h = true ↔ (isHex40Spec h = true ∨ isHex40ThenNL h = true) := by
  unfold is_a_hash isHex40Spec isHex40ThenNL
  simp only [Bool.and_eq_true, Bool.or_eq_true, decide_eq_true_eq,
    List.isEmpty_iff, beq_iff_eq, List.all_eq_true]
  constructor
  · rintro ⟨⟨h40, hall⟩, hdrop | hdrop⟩
    · have hl := congrArg List.length hdrop
      rw [List.length_drop] at hl
      simp only [List.length_nil] at hl
      refine Or.inl ⟨by omega, ?_⟩
      rw [List.take_of_length_le (by omega)] at hall
      exact hall
    · have hl := congrArg List.length hdrop
      rw [List.length_drop] at hl
      simp only [List.length_cons, List.length_nil] at hl
      exact Or.inr ⟨⟨by omega, hall⟩, hdrop⟩
  · rintro (⟨hlen, hall⟩ | ⟨⟨hlen, hall⟩, hdrop⟩)
    · refine ⟨⟨by omega, ?_⟩, Or.inl (List.drop_eq_nil_of_le (by omega))⟩
      rw [List.take_of_length_le (by omega : h.data.length ≤ 40)]
      exact hall
    · exact ⟨⟨by omega, hall⟩, Or.inr hdrop⟩

/-- C7: for a run that reaches its end (`filesLoop` completes without an
uncaught exception), the value `main` returns is nonzero exactly when the
accumulated error list is non-empty.  The run builds no warning list at
all — `main` only accumulates `errors` — so warnings cannot affect the
return value. -/
theorem mainReturn_nonzero_iff_errors (w : World) (pv : Option String)
    (pp : List String) (fs : List InputFile) (es : List String)
    (tr : List GitOp) (hrun : filesLoop w pv pp fs = Except.ok (es, tr)) :
    mainReturn es ≠ 0 ↔ es ≠ [] := by
  unfold mainReturn
  rcases es with _ | ⟨e, es⟩ <;> simp

/-- Witness for C7: a one-file run whose deliverable lacks a launchpad
project completes with one error and nonzero return value. -/
theorem mainReturn_nonzero_iff_errors_witness :
    mainReturn [noLaunchpadMsg "f.yaml"] ≠ 0 ↔
      [noLaunchpadMsg "f.yaml"] ≠ [] :=
  mainReturn_nonzero_iff_errors
    ⟨fun _ => LPResult.status 200, fun _ => [], fun _ _ => true,
     fun _ _ => "", fun _ _ _ => true⟩
    none [] [⟨"f.yaml", true, ⟨none, some "a", []⟩⟩]
    [noLaunchpadMsg "f.yaml"] [] rfl

/-- C9 (counterexample): with cleanup requested and a normal process exit,
the working directory is not removed when `shutil.rmtree` fails, because
`cleanup_workdir` swallows every exception (`except: pass`); so "the
directory is removed on process exit" does not hold as stated. -/
theorem workdir_not_removed_on_rmtree_failure :
    workdirRemovedAtExit true false ExitKind.normal = false := by decide

/-- C9 (amended): when the caller opted out the directory is never removed;
when cleanup was requested, it is removed at exactly those exits at which
`atexit` handlers run (normal exit or uncaught exception, not a hard kill)
and at which the `rmtree` call itself succeeds — a failing removal is
silently ignored. -/
theorem workdir_cleanup_characterization :
    (∀ rm ek, workdirRemovedAtExit false rm ek = false) ∧
    (∀ rm ek, workdirRemovedAtExit true rm ek = true ↔
      (atexitRuns ek = true ∧ rm = true)) := by
  constructor
  · intro rm ek
    cases ek <;> simp [workdirRemovedAtExit, atexitRuns, cleanup_workdir]
  · intro rm ek
    cases ek <;> cases rm <;>
      simp [workdirRemovedAtExit, atexitRuns, cleanup_workdir]

/-- Unfolding equation of `filesLoop` on an empty file list. -/
theorem filesLoop_nil (w : World) (pv : Option String) (pp : List String) :
    filesLoop w pv pp [] = Except.ok ([], []) := rfl

/-- Unfolding equation of `filesLoop` on a non-empty file list. -/
theorem filesLoop_cons (w : World) (pv : Option String) (pp : List String)
    (f : InputFile) (rest : List InputFile) :
    filesLoop w pv pp (f :: rest) =
      if f.present then
        match processDeliverable w f.filename f.deliv with
        | Except.error u => Except.error u
        | Except.ok (es, tr, pvN, ppN) =>
          match filesLoop w pvN ppN rest with
          | Except.error u => Except.error u
          | Except.ok (es2, tr2) => Except.ok (es ++ es2, tr ++ tr2)
      else filesLoop w pv pp rest := rfl

/-- The carried `prev_version` / `prev_projects` state never influences a
run: every present file overwrites it before reading it. -/
theorem filesLoop_state_irrelevant (w : World) (fs : List InputFile) :
    ∀ pv pp pv2 pp2, filesLoop w pv pp fs = filesLoop w pv2 pp2 fs := by
  induction fs with
  | nil => intro _ _ _ _; rfl
  | cons f rest ih =>
    intro pv pp pv2 pp2
    rw [filesLoop_cons, filesLoop_cons]
    by_cases hp : f.present = true
    · rw [if_pos hp, if_pos hp]
    · rw [if_neg hp, if_neg hp]
      exact ih pv pp pv2 pp2

/-- A run over a concatenation of inputs is the combination of the runs
over the pieces. -/
theorem filesLoop_append (w : World) (fs1 : List InputFile) :
    ∀ pv pp fs2, filesLoop w pv pp (fs1 ++ fs2) =
      combineRuns (filesLoop w pv pp fs1) (filesLoop w pv pp fs2) := by
  induction fs1 with
  | nil =>
    intro pv pp fs2
    rw [List.nil_append, filesLoop_nil]
    cases h2 : filesLoop w pv pp fs2 with
    | error u => simp [combineRuns]
    | ok r =>
      obtain ⟨es, tr⟩ := r
      simp [combineRuns]
  | cons f rest ih =>
    intro pv pp fs2
    rw [show (f :: rest) ++ fs2 = f :: (rest ++ fs2) from rfl,
      filesLoop_cons, filesLoop_cons]
    by_cases hp : f.present = true
    · rw [if_pos hp, if_pos hp]
      cases hd : processDeliverable w f.filename f.deliv with
      | error u => simp [combineRuns]
      | ok r =>
        obtain ⟨es, tr, pvN, ppN⟩ := r
        dsimp only
        rw [ih pvN ppN fs2, filesLoop_state_irrelevant w fs2 pv pp pvN ppN]
        cases h1 : filesLoop w pvN ppN rest with
        | error u => simp [combineRuns]
        | ok r1 =>
          obtain ⟨es1, tr1⟩ := r1
          cases h2 : filesLoop w pvN ppN fs2 with
          | error u => simp [combineRuns]
          | ok r2 =>
            obtain ⟨es2, tr2⟩ := r2
            simp [combineRuns, List.append_assoc]
    · rw [if_neg hp, if_neg hp]
      exact ih pv pp fs2

/-- C10: the previous-release tracking is reset at the start of each
deliverable (lines 123-124 run inside the per-file loop), so a run's
outcome is independent of the state left by earlier files, and a run over
several files is the independent combination of single-deliverable runs —
no check in one deliverable depends on another deliverable's releases. -/
theorem prev_tracking_reset_per_deliverable (w : World) :
    (∀ pv pp pv2 pp2 fs, filesLoop w pv pp fs = filesLoop w pv2 pp2 fs) ∧
    (∀ pv pp fs1 fs2, filesLoop w pv pp (fs1 ++ fs2) =
      combineRuns (filesLoop w pv pp fs1) (filesLoop w pv pp fs2)) :=
  ⟨fun pv pp pv2 pp2 fs => filesLoop_state_irrelevant w fs pv pp pv2 pp2,
   fun pv pp fs1 fs2 => filesLoop_append w fs1 pv pp fs2⟩

/-- C5: a project reference whose hash string is malformed gets exactly the
one format error, and no repository operation (existence lookup, clone,
tag resolution or ancestry query) is performed for it. -/
theorem malformed_hash_single_error_no_lookup (w : World) (version : String)
    (pv : Option String) (pp : List String) (p : ProjectRef)
    (h : is_a_hash p.hash = false) :
    processProject w version pv pp p = ([notAHashMsg version p], []) := by
  unfold processProject
  rw [if_pos h]

/-- Witness for C5: the hash of the repository's own test case,
`this-is-not-a-hash`, draws the format error and triggers no lookup. -/
theorem malformed_hash_single_error_no_lookup_witness :
    processProject wNone "0.1" none []
        ⟨"openstack/release-test", "this-is-not-a-hash"⟩ =
      ([notAHashMsg "0.1" ⟨"openstack/release-test", "this-is-not-a-hash"⟩],
       []) :=
  malformed_hash_single_error_no_lookup wNone "0.1" none [] _ (by decide)

/-- C5 (counterexample): a hash that is not 40 hexadecimal characters — 40
`a` characters and a trailing newline — is nevertheless accepted by the
format check, so the validator performs repository lookups for it
(existence, tag and clone operations) and records a commit-not-found error
rather than the format error: the claim's "malformed ⇒ no lookup" fails
for this string. -/
theorem malformed_newline_hash_is_looked_up :
    isHex40Spec "aaaaaaaaaaaaaaaaaaaaaaaaaaaaaaaaaaaaaaaa\n" = false ∧
    processProject wNone "0.1" none []
        ⟨"r", "aaaaaaaaaaaaaaaaaaaaaaaaaaaaaaaaaaaaaaaa\n"⟩ =
      ([noCommitMsg ⟨"r", "aaaaaaaaaaaaaaaaaaaaaaaaaaaaaaaaaaaaaaaa\n"⟩],
       [GitOp.commitExists "r" "aaaaaaaaaaaaaaaaaaaaaaaaaaaaaaaaaaaaaaaa\n",
        GitOp.commitExists "r" "0.1", GitOp.cloneRepo "r"]) :=
  ⟨by decide, rfl⟩

/-- The commit-not-found message and the not-a-descendant message for the
same project always differ: their lengths cannot agree once the previous
version is non-empty. -/
theorem noCommitMsg_ne_notDescendantMsg (p : ProjectRef) (pv : String)
    (hpv : pv ≠ "") : noCommitMsg p ≠ notDescendantMsg p pv := by
  intro he
  have hd := congrArg String.data he
  simp only [noCommitMsg, notDescendantMsg, pyRepr, String.data_append] at hd
  have hl := congrArg List.length hd
  simp only [List.length_append, List.length_cons, List.length_nil] at hl
  have hpv1 : 1 ≤ pv.data.length := by
    rcases hq : pv.data with _ | ⟨c, cs⟩
    · exact absurd (by apply String.ext; simp [hq]) hpv
    · simp
  omega

/-- C3 (amended): for a project of a non-first release whose hash is
well-formed, whose version tag does not yet exist, whose repository is in
the previous release's repository set, and whose previous release has a
non-empty version string, the recorded errors are exactly the existence
check's followed by the ancestry check's, and the not-a-descendant error
is recorded iff the claimed hash is not a descendant of the previous
version. -/
theorem ancestry_error_iff_not_descendant (w : World) (version : String)
    (pv : String) (pp : List String) (p : ProjectRef)
    (h1 : is_a_hash p.hash = true)
    (h2 : w.commit_exists p.repo version = false)
    (h3 : pv ≠ "")
    (h4 : pp.contains p.repo = true) :
    (processProject w version (some pv) pp p).1 =
      (if w.commit_exists p.repo p.hash then [] else [noCommitMsg p]) ++
        ancestryErrors w pv p ∧
    (notDescendantMsg p pv ∈ (processProject w version (some pv) pp p).1 ↔
      w.check_ancestry p.repo pv p.hash = false) := by
  have hmain : (processProject w version (some pv) pp p).1 =
      (if w.commit_exists p.repo p.hash then [] else [noCommitMsg p]) ++
        ancestryErrors w pv p := by
    unfold processProject
    rw [if_neg (by simp [h1])]
    dsimp only
    rw [h2, if_neg (by decide : ¬ (false = true)), if_neg h3,
      if_neg (by rw [h4]; decide)]
  refine ⟨hmain, ?_⟩
  rw [hmain]
  unfold ancestryErrors
  by_cases hanc : w.check_ancestry p.repo pv p.hash = true
  · rw [if_pos hanc, List.append_nil]
    constructor
    · intro hmem
      by_cases hce : w.commit_exists p.repo p.hash = true
      · rw [if_pos hce] at hmem
        cases hmem
      · rw [if_neg hce] at hmem
        have heq := List.mem_singleton.mp hmem
        exact absurd heq.symm (noCommitMsg_ne_notDescendantMsg p pv h3)
    · intro hfalse
      rw [hanc] at hfalse
      cases hfalse
  · rw [if_neg hanc]
    have hanc2 : w.check_ancestry p.repo pv p.hash = false := by
      cases hq : w.check_ancestry p.repo pv p.hash
      · rfl
      · exact absurd hq hanc
    exact ⟨fun _ => hanc2,
      fun _ => List.mem_append_right _ (List.mem_singleton_self _)⟩

/-- Witness for C3 (amended): a concrete project whose hash is not a
descendant of the previous version receives the not-a-descendant error. -/
theorem ancestry_error_iff_not_descendant_witness :
    (processProject wNoTags "1.0.0" (some "0.9.0") ["r"] ⟨"r", hashB⟩).1 =
      (if wNoTags.commit_exists "r" hashB then []
       else [noCommitMsg ⟨"r", hashB⟩]) ++
        ancestryErrors wNoTags "0.9.0" ⟨"r", hashB⟩ ∧
    (notDescendantMsg ⟨"r", hashB⟩ "0.9.0" ∈
        (processProject wNoTags "1.0.0" (some "0.9.0") ["r"] ⟨"r", hashB⟩).1 ↔
      wNoTags.check_ancestry "r" "0.9.0" hashB = false) :=
  ancestry_error_iff_not_descendant wNoTags "1.0.0" "0.9.0" ["r"]
    ⟨"r", hashB⟩ (by decide) (by decide) (by decide) (by decide)

/-- C3 (counterexample): when the previous release's version string is
empty (a falsy value in Python), the descendant check is silently skipped:
here every condition of the claim holds — well-formed hash, version tag
absent, repository `r` in the previous release, hash not a descendant —
yet the run records no error at all. -/
theorem descendant_check_skipped_for_empty_prev_version :
    is_a_hash hashB = true ∧
    wNoTags.commit_exists "r" "1.0.0" = false ∧
    (["r"].contains "r") = true ∧
    wNoTags.check_ancestry "r" "" hashB = false ∧
    runErrors (filesLoop wNoTags none [] [⟨"f", true, ⟨some "lp", some "a",
      [⟨"", [⟨"r", hashA⟩]⟩, ⟨"1.0.0", [⟨"r", hashB⟩]⟩]⟩⟩]) = some [] :=
  ⟨by decide, by decide, by decide, rfl, rfl⟩

/-- C4: for a project with a well-formed hash whose version tag already
exists (in a repository state where the tag's resolved commit does exist),
exactly one of two outcomes holds: the tag resolves to the claimed hash
and no error is recorded for the project, or it resolves to a different
commit and the error naming both the actual and the claimed commit is
recorded — there is no third outcome. -/
theorem existing_tag_dichotomy (w : World) (version : String)
    (pv : Option String) (pp : List String) (p : ProjectRef)
    (h1 : is_a_hash p.hash = true)
    (h2 : w.commit_exists p.repo version = true)
    (hc : w.commit_exists p.repo (w.sha_for_tag p.repo version) = true) :
    (w.sha_for_tag p.repo version = p.hash ∧
      (processProject w version pv pp p).1 = []) ∨
    (w.sha_for_tag p.repo version ≠ p.hash ∧
      wrongCommitMsg version p (w.sha_for_tag p.repo version) ∈
        (processProject w version pv pp p).1) := by
  have hmain : (processProject w version pv pp p).1 =
      (if w.commit_exists p.repo p.hash then [] else [noCommitMsg p]) ++
        tagMatchErrors version p (w.sha_for_tag p.repo version) := by
    unfold processProject
    rw [if_neg (by simp [h1])]
    dsimp only
    rw [h2, if_pos rfl]
  by_cases hm : w.sha_for_tag p.repo version = p.hash
  · left
    refine ⟨hm, ?_⟩
    rw [hmain]
    unfold tagMatchErrors
    rw [if_pos hm, List.append_nil]
    rw [hm] at hc
    rw [hc, if_pos rfl]
  · right
    refine ⟨hm, ?_⟩
    rw [hmain]
    unfold tagMatchErrors
    rw [if_neg hm]
    exact List.mem_append_right _ (List.mem_singleton_self _)

/-- Witness for C4: a tag resolving to the claimed hash yields the first
outcome — no error for the project. -/
theorem existing_tag_dichotomy_witness :
    (wAllA.sha_for_tag "r" "1.0.0" = hashA ∧
      (processProject wAllA "1.0.0" none [] ⟨"r", hashA⟩).1 = []) ∨
    (wAllA.sha_for_tag "r" "1.0.0" ≠ hashA ∧
      wrongCommitMsg "1.0.0" ⟨"r", hashA⟩ (wAllA.sha_for_tag "r" "1.0.0") ∈
        (processProject wAllA "1.0.0" none [] ⟨"r", hashA⟩).1) :=
  existing_tag_dichotomy wAllA "1.0.0" none [] ⟨"r", hashA⟩
    (by decide) rfl rfl

/-- A project whose well-formed hash does not exist contributes exactly the
commit-not-found error when it is the only project of a deliverable's only
release and its version tag is absent or agrees with the claimed hash. -/
theorem processProject_missing_commit (w : World) (v : String)
    (p : ProjectRef)
    (hhash : is_a_hash p.hash = true)
    (hmiss : w.commit_exists p.repo p.hash = false)
    (htag : w.commit_exists p.repo v = false ∨
      w.sha_for_tag p.repo v = p.hash) :
    (processProject w v none [] p).1 = [noCommitMsg p] := by
  unfold processProject
  rw [if_neg (by simp [hhash])]
  dsimp only
  rw [hmiss, if_neg (by decide : ¬ (false = true))]
  cases hb : w.commit_exists p.repo v with
  | false =>
    rw [if_neg (by decide : ¬ (false = true))]
  | true =>
    have hst : w.sha_for_tag p.repo v = p.hash := by
      cases htag with
      | inl hl => rw [hb] at hl; cases hl
      | inr hr => exact hr
    rw [if_pos rfl]
    dsimp only
    unfold tagMatchErrors
    rw [if_pos hst, List.append_nil]

/-- C6 (amended): a run over one deliverable with a single release and a
single project whose well-formed hash does not exist records exactly one
error — the commit-not-found error — provided the other checks are clean:
the launchpad project resolves without a 4xx, the announcement address has
no space, the version string is accepted, and the version tag is absent or
resolves to the claimed hash.  No warning exists anywhere in the run:
`main` accumulates only `errors`. -/
theorem missing_commit_single_error (w : World) (fn lp ann v : String)
    (c : Nat) (p : ProjectRef)
    (hlp : w.lp_get lp = LPResult.status c)
    (hc4 : c / 100 ≠ 4)
    (hann : ann.data.contains (Char.ofNat 32) = false)
    (hvv : w.validate_version v = [])
    (hhash : is_a_hash p.hash = true)
    (hmiss : w.commit_exists p.repo p.hash = false)
    (htag : w.commit_exists p.repo v = false ∨
      w.sha_for_tag p.repo v = p.hash) :
    runErrors (filesLoop w none []
        [⟨fn, true, ⟨some lp, some ann, [⟨v, [p]⟩]⟩⟩]) =
      some [noCommitMsg p] := by
  have hproj := processProject_missing_commit w v p hhash hmiss htag
  rw [filesLoop_cons, if_pos rfl]
  unfold processDeliverable launchpadCheck announceErrors
  dsimp only
  rw [hlp]
  dsimp only
  rw [if_neg hc4, hann, if_neg (by decide : ¬ (false = true))]
  simp only [releaseLoop, hvv, List.map_cons, List.map_nil, List.flatten,
    List.append_nil, List.nil_append]
  rw [hproj]
  rw [filesLoop_nil]
  simp [runErrors]

/-- Witness for C6 (amended): a concrete world in which nothing exists
yields exactly the one commit-not-found error. -/
theorem missing_commit_single_error_witness :
    runErrors (filesLoop wNone none []
        [⟨"f", true, ⟨some "lp", some "a",
          [⟨"1.0.0", [⟨"r", hashA⟩]⟩]⟩⟩]) =
      some [noCommitMsg ⟨"r", hashA⟩] :=
  missing_commit_single_error wNone "f" "lp" "a" "1.0.0" 200 ⟨"r", hashA⟩
    rfl (by decide) (by decide) rfl (by decide) rfl (Or.inl rfl)

/-- C6 (counterexample): the claim as stated is false — a deliverable whose
only project has a well-formed but non-existent hash can record five
errors, not one, when the launchpad key is missing, the announcement key
is missing, the version string is rejected, and the version tag already
exists on a different commit. -/
theorem missing_commit_not_single_error :
    is_a_hash hashA = true ∧
    wC6x.commit_exists "r" hashA = false ∧
    runErrors (filesLoop wC6x none []
        [⟨"f", true, ⟨none, none, [⟨"0.1", [⟨"r", hashA⟩]⟩]⟩⟩]) =
      some [noLaunchpadMsg "f", noAnnounceMsg "f", "bad version",
        noCommitMsg ⟨"r", hashA⟩,
        wrongCommitMsg "0.1" ⟨"r", hashA⟩ hashB] :=
  ⟨by decide, by decide, rfl⟩

/-- C2 (code_bug evaluation): a deliverable whose two releases carry
decreasing versions `1.0.0` then `0.9.0`, in a repository state where both
claimed hashes resolve, produces an empty error list — `main` never
compares successive release versions, so no version-ordering error is
recorded anywhere. -/
theorem decreasing_versions_no_ordering_error :
    wBothResolve.commit_exists "r" hashA = true ∧
    wBothResolve.commit_exists "r" hashB = true ∧
    runErrors (filesLoop wBothResolve none []
        [⟨"f", true, ⟨some "lp", some "a",
          [⟨"1.0.0", [⟨"r", hashA⟩]⟩,
           ⟨"0.9.0", [⟨"r", hashB⟩]⟩]⟩⟩]) = some [] :=
  ⟨rfl, rfl, rfl⟩

/-- C8 (code_bug evaluation): a transport failure of the launchpad request
is not caught anywhere in `main`, so the run aborts with the exception
instead of recording a could-not-verify warning; a definite 4xx answer, by
contrast, is recorded as an error as the claim says. -/
theorem launchpad_transport_failure_crashes :
    filesLoop wLPDown none [] [⟨"f", true, ⟨some "lp", some "a", []⟩⟩] =
      Except.error () ∧
    runErrors (filesLoop wLP404 none []
        [⟨"f", true, ⟨some "lp", some "a", []⟩⟩]) =
      some [badLaunchpadMsg "lp"] :=
  ⟨rfl, rfl⟩

end Releases
